import Mathlib

/-
Shallow embedding of the Kubernetes worker module of virtual-host-gatherer
(lib/gatherer/modules/Kubernetes.py) together with theorems about the
behaviour its specification describes.

Modelling conventions:
* Python dictionaries of configuration parameters become a structure of
  Option String fields; dict.get returns none when the key is absent.
* Python truthiness of an optional string (None and the empty string are
  falsy) is the function truthy.
* Exceptions are explicit: every effectful operation returns a pair of a
  PyResult (normal value or raised exception) and the resulting system
  state, because a raised Python exception does not roll back state.
* The module-global kubernetes.client.configuration singleton and the
  filesystem (the set of existing file paths) form the SysState record.
* External library behaviour (base64 decoding success, load_kube_config,
  the node-listing API call, os.remove outcomes, names allocated by
  tempfile.NamedTemporaryFile) is an oracle record Env supplied to the
  embedded code.
* Machine integers do not occur; Python integers are Nat here.  The memory
  conversion uses Python true division by 1024 followed by int()
  truncation, which on the nonnegative magnitudes produced by the digits
  group is exactly Nat division.
-/

namespace Kubernetes

/-- Python truthiness of an optional string: None and the empty string are
falsy, every other string is truthy. -/
def truthy : Option String → Bool
  | none => false
  | some s => !(s == "")

/-- The Python exceptions relevant to this module.  attributeError is the
AttributeError raised by validation (the ConfigurationError of the spec),
apiException and httpError are the kubernetes ApiException and the urllib3
HTTPError caught in run, nameError models evaluation of an undefined name,
valueError models any other unexpected runtime error such as a base64
decoding failure. -/
inductive PyErr where
  | attributeError (msg : String)
  | apiException (status : Nat)
  | httpError (msg : String)
  | nameError (missing : String)
  | valueError (msg : String)
deriving DecidableEq, Repr

/-- Outcome of evaluating a Python statement or expression: a normal value
or a raised exception. -/
inductive PyResult (α : Type) where
  | ok (a : α)
  | exn (e : PyErr)
deriving DecidableEq, Repr

/-- The configuration mapping handed to set_node: dict.get of each of the
eight recognized keys. -/
structure NodeConfig where
  url : Option String
  username : Option String
  password : Option String
  clientCert : Option String
  clientKey : Option String
  caCert : Option String
  kubeconfig : Option String
  ctx : Option String
deriving DecidableEq, Repr

/-- The fields the worker instance stores (self.url, self.user,
self.password, self.client_cert, self.client_key, self.ca_cert,
self.kubeconfig, self.context). -/
structure Worker where
  url : Option String
  user : Option String
  password : Option String
  client_cert : Option String
  client_key : Option String
  ca_cert : Option String
  kubeconfig : Option String
  ctx : Option String
deriving DecidableEq, Repr

/-- The message of the AttributeError raised by _validate_parameters. -/
def missingParamMsg : String :=
  "Missing either parameter or value url or kubeconfig and context in infile"

/-- Embeds Kubernetes.set_node (lines 69 to 90): _validate_parameters runs
first and its AttributeError is re-raised before any field assignment;
otherwise every field is assigned from the configuration mapping.  The
second component is the worker instance after the call. -/
def set_node (w : Worker) (node : NodeConfig) : PyResult Unit × Worker :=
  if !truthy node.url && !(truthy node.kubeconfig && truthy node.ctx) then
    (.exn (.attributeError missingParamMsg), w)
  else
    (.ok (), { url := node.url, user := node.username, password := node.password,
               client_cert := node.clientCert, client_key := node.clientKey,
               ca_cert := node.caCert, kubeconfig := node.kubeconfig, ctx := node.ctx })

/-- Embeds the Python str.lower method on the ASCII range, as used by
arch.lower() on line 125. -/
def pyLower (s : String) : String :=
  String.mk (s.data.map Char.toLower)

/-- Embeds the architecture normalization of run (lines 124 to 126): if the
lowercased architecture equals amd64 it becomes x86_64, otherwise the
string passes through verbatim. -/
def normalizeArch (arch : String) : String :=
  if pyLower arch = "amd64" then "x86_64" else arch

/-- Modelled from the spec: the phrase case-insensitively equals, read as
equality after lowercasing both sides. -/
def caseInsensitiveEq (s t : String) : Bool :=
  pyLower s == pyLower t

/-- A regex word character as in the character class of the pattern on line
117: letters, digits and the underscore. -/
def isWordChar (c : Char) : Bool :=
  c.isAlphanum || c == '_'

/-- Length of the longest all-digit prefix of a character list. -/
def digitPrefixLen : List Char → Nat
  | [] => 0
  | c :: cs => if c.isDigit then digitPrefixLen cs + 1 else 0

/-- Python int() applied to a nonempty string of decimal digits. -/
def parseNatDigits (cs : List Char) : Nat :=
  cs.foldl (fun acc c => acc * 10 + (c.toNat - 48)) 0

/-- Embeds re.match of the anchored pattern of one digits group followed by
one word-character group against a whole string (line 117).  The pattern
matches exactly when the string starts with a digit, consists only of word
characters and has length at least two; the greedy digits group takes the
longest digit prefix, backing off by one character when that prefix is the
whole string so that the word group stays nonempty. -/
def regMatch (s : List Char) : Option (List Char × List Char) :=
  if Nat.ble 1 (digitPrefixLen s) && Nat.ble 2 s.length && s.all isWordChar then
    some (s.take (min (digitPrefixLen s) (s.length - 1)),
          s.drop (min (digitPrefixLen s) (s.length - 1)))
  else none

/-- Modelled from the spec: the declarative reading of the pattern, a split
into a nonempty digits part followed by a nonempty word-character part. -/
def matchesPat (s : List Char) : Prop :=
  ∃ a b, s = a ++ b ∧ a ≠ [] ∧ b ≠ [] ∧ a.all Char.isDigit = true ∧ b.all isWordChar = true

/-- Embeds the memory normalization of run (lines 116 to 123 and 138):
memory starts at 0; when the capacity string matches the pattern the
magnitude and unit groups are taken, a Ki magnitude is divided by 1024 and
a Gi magnitude is multiplied by 1024, while any other unit leaves the
magnitude string untouched; the final ramMb value is int() of the result. -/
def normalizeMemory (memStr : String) : Nat :=
  match regMatch memStr.data with
  | none => 0
  | some (mag, u) =>
    if u = "Ki".data then parseNatDigits mag / 1024
    else if u = "Gi".data then parseNatDigits mag * 1024
    else parseNatDigits mag

/-- One node of the backend response: metadata.name, the raw cpu and memory
capacity strings, status.node_info.architecture, machine_id and os_image. -/
structure BackendNode where
  name : String
  cpu : String
  memory : String
  architecture : String
  machine_id : String
  os_image : String
deriving DecidableEq, Repr

/-- The canonical inventory record built for each node in run
(lines 128 to 143).  The vms field is the empty mapping. -/
structure InventoryRecord where
  type : String
  cpuArch : String
  cpuDescription : String
  cpuMhz : String
  cpuVendor : String
  hostIdentifier : String
  name : String
  os : String
  osVersion : Nat
  ramMb : Nat
  totalCpuCores : String
  totalCpuSockets : String
  totalCpuThreads : Nat
  vms : List (String × String)
deriving DecidableEq, Repr

/-- The record literal of lines 128 to 143 for one backend node. -/
def makeRecord (node : BackendNode) : InventoryRecord :=
  { type := "kubernetes"
    cpuArch := normalizeArch node.architecture
    cpuDescription := "(unknown)"
    cpuMhz := node.cpu
    cpuVendor := "(unknown)"
    hostIdentifier := node.machine_id
    name := node.name
    os := node.os_image
    osVersion := 1
    ramMb := normalizeMemory node.memory
    totalCpuCores := node.cpu
    totalCpuSockets := node.cpu
    totalCpuThreads := 1
    vms := [] }

/-- The output dictionary, as an insertion-ordered association list. -/
abbrev OutMap := List (String × InventoryRecord)

/-- Python dict assignment output of a key: replace in place when the key is
present, append otherwise. -/
def dictInsert : OutMap → String → InventoryRecord → OutMap
  | [], k, v => [(k, v)]
  | (k0, v0) :: rest, k, v =>
      if k0 = k then (k, v) :: rest else (k0, v0) :: dictInsert rest k v

/-- The loop of lines 114 to 143: build the output dictionary keyed by node
name. -/
def buildOutput (nodes : List BackendNode) : OutMap :=
  nodes.foldl (fun out n => dictInsert out n.name (makeRecord n)) []

/-- The module-global kubernetes.client.configuration singleton, restricted
to the fields this module reads or writes. -/
structure TransportConfig where
  host : Option String
  user : Option String
  passwd : Option String
  ssl_ca_cert : Option String
  cert_file : Option String
  key_file : Option String
deriving DecidableEq, Repr

/-- System state threaded through the effectful code: the set of existing
file paths and the global transport configuration. -/
structure SysState where
  fs : List String
  config : TransportConfig
deriving DecidableEq, Repr

/-- Oracle for the external environment: the names the three possible
NamedTemporaryFile calls would allocate, whether base64.b64decode of a
given field succeeds, the effect of kubernetes.config.load_kube_config on
the global configuration, the outcome of the list_node API call, and the
outcome of os.remove on a path (none is success, some e is an OSError with
errno e). -/
structure Env where
  tmpCa : String
  tmpCert : String
  tmpKey : String
  decodeOk : String → Bool
  loadKubeConfig : TransportConfig → Except PyErr TransportConfig
  listNode : Except PyErr (List BackendNode)
  removeOutcome : String → Option Nat

/-- One credential block of _setup_connection (for example lines 179 to
182): NamedTemporaryFile with delete False creates the file on disk first;
then base64.b64decode runs, and on failure the exception propagates with
the file already existing and the configuration field not yet assigned; on
success the decoded bytes are written and the configuration field is set to
the file name. -/
def writeSecret (tmpName : String) (decOk : Bool)
    (setF : TransportConfig → String → TransportConfig)
    (s : SysState) : PyResult Unit × SysState :=
  let s1 : SysState := { s with fs := s.fs ++ [tmpName] }
  if decOk then (.ok (), { s1 with config := setF s1.config tmpName })
  else (.exn (.valueError "binascii decoding failure"), s1)

/-- Embeds Kubernetes._setup_connection (lines 168 to 190).  With both
kubeconfig and context truthy, load_kube_config configures the global
configuration; otherwise the global configuration is reinitialized, host,
user and passwd are assigned from the worker fields, and each truthy
credential field is materialized to a temporary file via writeSecret. -/
def setup_connection (env : Env) (w : Worker) (s : SysState) :
    PyResult Unit × SysState :=
  if truthy w.kubeconfig && truthy w.ctx then
    match env.loadKubeConfig s.config with
    | .error e => (.exn e, s)
    | .ok c => (.ok (), { s with config := c })
  else
    let s0 : SysState :=
      { s with config := { host := w.url, user := w.user, passwd := w.password,
                           ssl_ca_cert := none, cert_file := none, key_file := none } }
    match (if truthy w.ca_cert then
             writeSecret env.tmpCa (env.decodeOk (w.ca_cert.getD ""))
               (fun c p => { c with ssl_ca_cert := some p }) s0
           else (.ok (), s0)) with
    | (.exn e, s1) => (.exn e, s1)
    | (.ok _, s1) =>
      match (if truthy w.client_cert then
               writeSecret env.tmpCert (env.decodeOk (w.client_cert.getD ""))
                 (fun c p => { c with cert_file := some p }) s1
             else (.ok (), s1)) with
      | (.exn e, s2) => (.exn e, s2)
      | (.ok _, s2) =>
        if truthy w.client_key then
          writeSecret env.tmpKey (env.decodeOk (w.client_key.getD ""))
            (fun c p => { c with key_file := some p }) s2
        else (.ok (), s2)

/-- The errno of a missing file. -/
def ENOENT : Nat := 2

/-- Embeds Kubernetes._safe_rm (lines 213 to 226).  A None path becomes the
empty string; a path that does not exist is skipped; a successful os.remove
deletes the file; an OSError with errno ENOENT is swallowed; any other
removal failure reaches the logging line, which evaluates the undefined
module-level name log and therefore raises NameError. -/
def safe_rm (env : Env) (path : Option String) (s : SysState) :
    PyResult Unit × SysState :=
  let p := path.getD ""
  if p ∈ s.fs then
    match env.removeOutcome p with
    | none => (.ok (), { s with fs := s.fs.erase p })
    | some e =>
        if e = ENOENT then (.ok (), s)
        else (.exn (.nameError "log"), s)
  else (.ok (), s)

/-- Embeds Kubernetes._cleanup (lines 192 to 200): _safe_rm on the three
path fields of the module-global transport configuration, in order; an
exception raised by one of them propagates. -/
def cleanup (env : Env) (s : SysState) : PyResult Unit × SysState :=
  match safe_rm env s.config.ssl_ca_cert s with
  | (.exn e, s1) => (.exn e, s1)
  | (.ok _, s1) =>
    match safe_rm env s1.config.cert_file s1 with
    | (.exn e, s2) => (.exn e, s2)
    | (.ok _, s2) => safe_rm env s2.config.key_file s2

/-- The try block of run (lines 110 to 153): the node-listing call followed
by the normalization loop; ApiException with status 404 and every other
ApiException or HTTPError are caught and turn the output into None, any
other exception is not caught.  The block touches no system state in this
embedding, so only the result is returned. -/
def runTry (env : Env) : PyResult (Option OutMap) :=
  match env.listNode with
  | .ok nodes => .ok (some (buildOutput nodes))
  | .error e =>
    match e with
    | .apiException status =>
        if status = 404 then .ok none else .ok none
    | .httpError _ => .ok none
    | other => .exn other

/-- Embeds Kubernetes.run (lines 101 to 157): _setup_connection runs before
the try block, so an exception it raises propagates without the finally
clause running; otherwise the try block executes and the finally clause
runs _cleanup, whose own exception would replace the pending result. -/
def run (env : Env) (w : Worker) (s : SysState) :
    PyResult (Option OutMap) × SysState :=
  match setup_connection env w s with
  | (.exn e, s1) => (.exn e, s1)
  | (.ok _, s1) =>
    match cleanup env s1 with
    | (.exn e, s2) => (.exn e, s2)
    | (.ok _, s2) => (runTry env, s2)

/-- A transport configuration with every field unset. -/
def emptyConfig : TransportConfig :=
  { host := none, user := none, passwd := none,
    ssl_ca_cert := none, cert_file := none, key_file := none }

/-- A fresh system state: no files, pristine global configuration. -/
def emptyState : SysState := { fs := [], config := emptyConfig }

/-- A worker configured with an explicit url, a ca certificate whose base64
payload decodes (Q0E= decodes to CA), and a client certificate whose
payload A makes base64.b64decode raise binascii.Error: after discarding
nothing, a single data character is an invalid base64 length (one more than
a multiple of four), which raises even with validate False. -/
def c1Worker : Worker :=
  { url := some "https://kube.example", user := none, password := none,
    client_cert := some "A", client_key := none, ca_cert := some "Q0E=",
    kubeconfig := none, ctx := none }

/-- Environment for the c1Worker scenario: decoding fails exactly on the
invalid-length payload A and succeeds elsewhere, everything else is
benign. -/
def c1Env : Env :=
  { tmpCa := "/tmp/kube-ca1", tmpCert := "/tmp/kube-cert1", tmpKey := "/tmp/kube-key1",
    decodeOk := fun f => !(f == "A"),
    loadKubeConfig := fun c => Except.ok c,
    listNode := Except.ok [],
    removeOutcome := fun _ => none }

/-- A worker configured with an explicit url and no credential fields. -/
def plainUrlWorker : Worker :=
  { url := some "https://kube.example", user := none, password := none,
    client_cert := none, client_key := none, ca_cert := none,
    kubeconfig := none, ctx := none }

/-- The state after a successful credential-free url-path setup on
emptyState. -/
def plainUrlSetupState : SysState :=
  { fs := [],
    config := { host := some "https://kube.example", user := none, passwd := none,
                ssl_ca_cert := none, cert_file := none, key_file := none } }

/-- Environment whose node-listing call raises an exception that is neither
an ApiException nor an HTTPError. -/
def c3Env : Env :=
  { tmpCa := "", tmpCert := "", tmpKey := "",
    decodeOk := fun _ => true,
    loadKubeConfig := fun c => Except.ok c,
    listNode := Except.error (PyErr.valueError "boom"),
    removeOutcome := fun _ => none }

/-- Environment whose node-listing call raises an ApiException with status
404. -/
def api404Env : Env :=
  { tmpCa := "", tmpCert := "", tmpKey := "",
    decodeOk := fun _ => true,
    loadKubeConfig := fun c => Except.ok c,
    listNode := Except.error (PyErr.apiException 404),
    removeOutcome := fun _ => none }

/-- Environment in which removing the file existing at /tmp/kube-old fails
with errno 13, the permission-denied errno. -/
def c7Env : Env :=
  { tmpCa := "", tmpCert := "", tmpKey := "",
    decodeOk := fun _ => true,
    loadKubeConfig := fun c => Except.ok c,
    listNode := Except.ok [],
    removeOutcome := fun q => if q == "/tmp/kube-old" then some 13 else none }

/-- A state holding one leftover temporary file. -/
def oldFileState : SysState := { fs := ["/tmp/kube-old"], config := emptyConfig }

/-- Two distinctly named fabricated backend nodes. -/
def nodeA : BackendNode :=
  { name := "node-a", cpu := "4", memory := "4194304Ki",
    architecture := "amd64", machine_id := "mid-a", os_image := "linux-a" }

/-- Second fabricated backend node. -/
def nodeB : BackendNode :=
  { name := "node-b", cpu := "8", memory := "4Gi",
    architecture := "arm64", machine_id := "mid-b", os_image := "linux-b" }

/-- Environment whose node-listing call succeeds with the two fabricated
nodes. -/
def twoNodeEnv : Env :=
  { tmpCa := "", tmpCert := "", tmpKey := "",
    decodeOk := fun _ => true,
    loadKubeConfig := fun c => Except.ok c,
    listNode := Except.ok [nodeA, nodeB],
    removeOutcome := fun _ => none }

/-- A worker configured through a kubeconfig file and a context name. -/
def kubeconfigWorker : Worker :=
  { url := none, user := none, password := none,
    client_cert := none, client_key := none, ca_cert := none,
    kubeconfig := some "/home/user/.kube/config", ctx := some "prod" }

/-- The transport configuration left behind by an earlier run, still naming
a ca-certificate file. -/
def staleConfig : TransportConfig :=
  { host := none, user := none, passwd := none,
    ssl_ca_cert := some "/tmp/kube-old", cert_file := none, key_file := none }

/-- Environment for the kubeconfig path whose load_kube_config leaves the
stale configuration in place. -/
def c9Env : Env :=
  { tmpCa := "", tmpCert := "", tmpKey := "",
    decodeOk := fun _ => true,
    loadKubeConfig := fun _ => Except.ok staleConfig,
    listNode := Except.ok [],
    removeOutcome := fun _ => none }

/-- A configuration mapping with only the url key set. -/
def urlOnlyConfig : NodeConfig :=
  { url := some "https://kube.example", username := none, password := none,
    clientCert := none, clientKey := none, caCert := none,
    kubeconfig := none, ctx := none }

/-- A configuration mapping with no url and only a kubeconfig, missing the
context. -/
def badConfig : NodeConfig :=
  { url := none, username := none, password := none,
    clientCert := none, clientKey := none, caCert := none,
    kubeconfig := some "/home/user/.kube/config", ctx := none }

/-- A worker holding arbitrary previously stored values. -/
def priorWorker : Worker :=
  { url := some "https://old.example", user := some "alice", password := some "pw",
    client_cert := some "CC", client_key := some "KK", ca_cert := some "CA",
    kubeconfig := some "/old/kubeconfig", ctx := some "old-ctx" }


/-! ## Helper lemmas -/

theorem safe_rm_removeOk (env : Env) (h : ∀ q, env.removeOutcome q = none)
    (path : Option String) (s : SysState) :
    safe_rm env path s = (.ok (), { s with fs := s.fs.erase (path.getD "") }) := by
  unfold safe_rm
  by_cases hm : path.getD "" ∈ s.fs
  · simp [hm, h]
  · simp [hm, List.erase_of_not_mem hm]

theorem cleanup_removeOk (env : Env) (h : ∀ q, env.removeOutcome q = none) (s : SysState) :
    cleanup env s = (.ok (),
      { s with fs := ((s.fs.erase (s.config.ssl_ca_cert.getD "")).erase
          (s.config.cert_file.getD "")).erase (s.config.key_file.getD "") }) := by
  simp only [cleanup, safe_rm_removeOk env h]

theorem run_of_setup_ok (env : Env) (w : Worker) (s s1 : SysState)
    (hs : setup_connection env w s = (.ok (), s1))
    (h : ∀ q, env.removeOutcome q = none) :
    run env w s = (runTry env,
      { s1 with fs := ((s1.fs.erase (s1.config.ssl_ca_cert.getD "")).erase
          (s1.config.cert_file.getD "")).erase (s1.config.key_file.getD "") }) := by
  simp only [run, hs, cleanup_removeOk env h]

theorem runTry_caught_api (env : Env) (st : Nat)
    (h : env.listNode = .error (.apiException st)) : runTry env = .ok none := by
  simp [runTry, h]

theorem runTry_caught_http (env : Env) (m : String)
    (h : env.listNode = .error (.httpError m)) : runTry env = .ok none := by
  simp [runTry, h]

theorem runTry_ok (env : Env) (nodes : List BackendNode)
    (h : env.listNode = .ok nodes) : runTry env = .ok (some (buildOutput nodes)) := by
  simp [runTry, h]

theorem runTry_uncaught (env : Env) (e : PyErr) (h : env.listNode = .error e)
    (h1 : ∀ st, e ≠ .apiException st) (h2 : ∀ m, e ≠ .httpError m) :
    runTry env = .exn e := by
  unfold runTry
  rw [h]
  cases e with
  | apiException st => exact absurd rfl (h1 st)
  | httpError m => exact absurd rfl (h2 m)
  | attributeError m => rfl
  | nameError m => rfl
  | valueError m => rfl

theorem dictInsert_of_not_mem (d : OutMap) (k : String) (v : InventoryRecord)
    (h : k ∉ d.map Prod.fst) : dictInsert d k v = d ++ [(k, v)] := by
  induction d with
  | nil => rfl
  | cons p rest ih =>
    obtain ⟨k0, v0⟩ := p
    simp only [List.map_cons, List.mem_cons, not_or] at h
    unfold dictInsert
    rw [if_neg (fun hek => h.1 hek.symm), ih h.2, List.cons_append]

theorem foldl_dictInsert (nodes : List BackendNode) :
    ∀ acc : OutMap, (acc.map Prod.fst ++ nodes.map BackendNode.name).Nodup →
    nodes.foldl (fun out n => dictInsert out n.name (makeRecord n)) acc
      = acc ++ nodes.map (fun n => (n.name, makeRecord n)) := by
  induction nodes with
  | nil => intro acc _; simp
  | cons n rest ih =>
    intro acc h
    have hnm : n.name ∉ acc.map Prod.fst := by
      intro hm
      rcases List.nodup_append.mp (by simpa using h) with ⟨_, _, hd⟩
      exact hd hm (by simp)
    rw [List.foldl_cons, dictInsert_of_not_mem _ _ _ hnm, ih]
    · simp
    · simpa [List.append_assoc] using h

theorem buildOutput_eq (nodes : List BackendNode)
    (h : (nodes.map BackendNode.name).Nodup) :
    buildOutput nodes = nodes.map (fun n => (n.name, makeRecord n)) := by
  have h2 := foldl_dictInsert nodes [] (by simpa using h)
  simpa [buildOutput] using h2

theorem wordChar_of_digit {c : Char} (h : c.isDigit = true) : isWordChar c = true := by
  simp [isWordChar, Char.isAlphanum, h]

theorem take_digitPrefix : ∀ (s : List Char) (k : Nat), k ≤ digitPrefixLen s →
    (s.take k).all Char.isDigit = true := by
  intro s
  induction s with
  | nil =>
    intro k hk
    simp only [digitPrefixLen, Nat.le_zero] at hk
    simp [hk]
  | cons c t ih =>
    intro k hk
    cases k with
    | zero => simp
    | succ k =>
      by_cases hc : c.isDigit = true
      · simp only [digitPrefixLen, hc, if_true] at hk
        have h2 := ih k (Nat.le_of_succ_le_succ hk)
        simp [List.take, hc, h2]
      · simp only [digitPrefixLen, if_neg hc] at hk
        omega

theorem regMatch_some_props {s a b : List Char} (h : regMatch s = some (a, b)) :
    s = a ++ b ∧ a ≠ [] ∧ b ≠ [] ∧ a.all Char.isDigit = true ∧
      b.all isWordChar = true := by
  unfold regMatch at h
  split at h
  case isTrue hcond =>
    simp only [Bool.and_eq_true] at hcond
    have hd : 1 ≤ digitPrefixLen s := Nat.le_of_ble_eq_true hcond.1.1
    have hn : 2 ≤ s.length := Nat.le_of_ble_eq_true hcond.1.2
    have h3 : s.all isWordChar = true := hcond.2
    injection h with h
    injection h with ha hb
    subst ha; subst hb
    have hk1 : 1 ≤ min (digitPrefixLen s) (s.length - 1) := by omega
    have hk2 : min (digitPrefixLen s) (s.length - 1) ≤ s.length - 1 :=
      Nat.min_le_right _ _
    refine ⟨(List.take_append_drop _ s).symm, ?_, ?_, ?_, ?_⟩
    · have hlen : 0 < (s.take (min (digitPrefixLen s) (s.length - 1))).length := by
        rw [List.length_take]; omega
      exact List.ne_nil_of_length_pos hlen
    · have hlen : 0 < (s.drop (min (digitPrefixLen s) (s.length - 1))).length := by
        rw [List.length_drop]; omega
      exact List.ne_nil_of_length_pos hlen
    · exact take_digitPrefix s _ (Nat.min_le_left _ _)
    · refine List.all_eq_true.mpr fun c hc => ?_
      exact List.all_eq_true.mp h3 c ((List.drop_sublist _ _).subset hc)
  case isFalse hcond => cases h

theorem regMatch_isSome_of_matches {s : List Char} (h : matchesPat s) :
    (regMatch s).isSome = true := by
  obtain ⟨a, b, hs, ha, hb, had, hbw⟩ := h
  obtain ⟨c, a2, hc⟩ := List.exists_cons_of_ne_nil ha
  have hcd : c.isDigit = true := List.all_eq_true.mp had c (by simp [hc])
  have h1 : 1 ≤ digitPrefixLen s := by
    rw [hs, hc]
    simp [digitPrefixLen, hcd]
  have h2 : 2 ≤ s.length := by
    rw [hs, List.length_append]
    have ha2 : 0 < a.length := List.length_pos.mpr ha
    have hb2 : 0 < b.length := List.length_pos.mpr hb
    omega
  have h3 : s.all isWordChar = true := by
    rw [hs, List.all_append]
    simp only [Bool.and_eq_true]
    refine ⟨?_, hbw⟩
    exact List.all_eq_true.mpr fun x hx =>
      wordChar_of_digit (List.all_eq_true.mp had x hx)
  unfold regMatch
  have hcond : (Nat.ble 1 (digitPrefixLen s) && Nat.ble 2 s.length &&
      s.all isWordChar) = true := by
    simp only [Bool.and_eq_true, Nat.ble_eq]
    exact ⟨⟨h1, h2⟩, h3⟩
  simp [hcond]

theorem normalizeMemory_of_not_matches {s : String} (h : ¬ matchesPat s.data) :
    normalizeMemory s = 0 := by
  unfold normalizeMemory
  cases hr : regMatch s.data with
  | none => rfl
  | some p =>
    obtain ⟨a, b⟩ := p
    have hp := regMatch_some_props hr
    exact absurd ⟨a, b, hp.1, hp.2.1, hp.2.2.1, hp.2.2.2.1, hp.2.2.2.2⟩ h


/-! ## Claim theorems -/

/-- C1: the claim says every ephemeral secret-artifact temporary file
created during a call to run is removed before run returns or propagates,
on every exit path including a failure during connection setup.  The code
violates this: _setup_connection runs before the try block of run, so when
base64.b64decode raises binascii.Error on the invalid-length client
certificate payload A after the ca-certificate temporary file has already
been created and registered, the exception propagates out of run without
_cleanup ever running, and both temporary files remain on disk. -/
theorem claim_C1_setup_failure_leaks_secret_files :
    (run c1Env c1Worker emptyState).1 =
      PyResult.exn (PyErr.valueError "binascii decoding failure") ∧
    (run c1Env c1Worker emptyState).2.fs = ["/tmp/kube-ca1", "/tmp/kube-cert1"] := by
  decide

/-- C2 counterexample: the claim maps the capacity string 500Mi to ramMb
equal to 0, but the code passes the magnitude of an unrecognized unit
through unconverted, so 500Mi yields 500. -/
theorem claim_C2_counterexample :
    normalizeMemory "500Mi" = 500 ∧ normalizeMemory "500Mi" ≠ 0 := by
  decide

/-- C2 amended: the memory normalization maps 4194304Ki to 4096, 4Gi to
4096, 500Mi to 500 (the magnitude of an unrecognized unit passes through
unconverted), and a string not matching the pattern, such as unknown, to
0. -/
theorem claim_C2_memory_examples :
    normalizeMemory "4194304Ki" = 4096 ∧ normalizeMemory "4Gi" = 4096 ∧
    normalizeMemory "500Mi" = 500 ∧ normalizeMemory "unknown" = 0 := by
  decide

/-- C3 counterexample: the claim says every runtime failure inside run
turns into a null result and only the configuration error ever crosses the
worker boundary; but when the node-listing call raises an exception that is
neither an ApiException nor an HTTPError, run propagates it. -/
theorem claim_C3_counterexample :
    (run c3Env plainUrlWorker emptyState).1 = PyResult.exn (PyErr.valueError "boom") ∧
    (run c3Env plainUrlWorker emptyState).1 ≠ PyResult.ok none := by
  decide

/-- C3 amended: after a successful connection setup, and with removals
succeeding, run converts an ApiException of any status and an HTTPError
into a null result without raising, while an exception of any other class
raised by the node-listing call propagates out of run; so ConfigurationError
is not the only exception that can cross the worker boundary. -/
theorem claim_C3_error_propagation_policy :
    ∀ (env : Env) (w : Worker) (s s1 : SysState),
      setup_connection env w s = (PyResult.ok (), s1) →
      (∀ q, env.removeOutcome q = none) →
      (∀ st, env.listNode = Except.error (PyErr.apiException st) →
        (run env w s).1 = PyResult.ok none) ∧
      (∀ m, env.listNode = Except.error (PyErr.httpError m) →
        (run env w s).1 = PyResult.ok none) ∧
      (∀ e, env.listNode = Except.error e → (∀ st, e ≠ PyErr.apiException st) →
        (∀ m, e ≠ PyErr.httpError m) → (run env w s).1 = PyResult.exn e) := by
  intro env w s s1 hs hrm
  refine ⟨?_, ?_, ?_⟩
  · intro st hln
    rw [run_of_setup_ok env w s s1 hs hrm]
    simp [runTry_caught_api env st hln]
  · intro m hln
    rw [run_of_setup_ok env w s s1 hs hrm]
    simp [runTry_caught_http env m hln]
  · intro e hln h1 h2
    rw [run_of_setup_ok env w s s1 hs hrm]
    simp [runTry_uncaught env e hln h1 h2]

/-- C3 witness: a 404 ApiException from the backend makes run return null
without raising. -/
theorem claim_C3_witness :
    (run api404Env plainUrlWorker emptyState).1 = PyResult.ok none := by
  have h := claim_C3_error_propagation_policy api404Env plainUrlWorker emptyState
      plainUrlSetupState (by decide) (fun q => rfl)
  exact h.1 404 rfl

/-- C4: for every capacity string, if no split into a nonempty digits part
followed by a nonempty word part exists, ramMb is 0; the computed match
agrees with that declarative pattern; and when the match yields magnitude
and unit groups, a Ki unit divides the magnitude by 1024 with truncation, a
Gi unit multiplies it by 1024, and any other unit carries the magnitude
through unconverted, the result being the truncated integer value. -/
theorem claim_C4_memory_conversion :
    ∀ s : String,
      (¬ matchesPat s.data → normalizeMemory s = 0) ∧
      (matchesPat s.data → (regMatch s.data).isSome = true) ∧
      (∀ a b, regMatch s.data = some (a, b) →
        (s.data = a ++ b ∧ a ≠ [] ∧ b ≠ [] ∧ a.all Char.isDigit = true ∧
          b.all isWordChar = true) ∧
        normalizeMemory s =
          (if b = "Ki".data then parseNatDigits a / 1024
           else if b = "Gi".data then parseNatDigits a * 1024
           else parseNatDigits a)) := by
  intro s
  refine ⟨normalizeMemory_of_not_matches, regMatch_isSome_of_matches, ?_⟩
  intro a b hm
  refine ⟨regMatch_some_props hm, ?_⟩
  simp [normalizeMemory, hm]

/-- C4 witness: the conversion rules applied at concrete capacity
strings. -/
theorem claim_C4_witness :
    normalizeMemory "2048Ki" = 2 ∧ normalizeMemory "3Gi" = 3072 := by
  have h1 := ((claim_C4_memory_conversion "2048Ki").2.2 "2048".data "Ki".data
    (by decide)).2
  have h2 := ((claim_C4_memory_conversion "3Gi").2.2 "3".data "Gi".data
    (by decide)).2
  exact ⟨h1.trans (by decide), h2.trans (by decide)⟩

/-- C5: a configuration with a truthy url and no kubeconfig or context
makes set_node succeed and store every field; a configuration whose url is
not truthy and whose kubeconfig and context are not both truthy makes
set_node raise the AttributeError of _validate_parameters.  set_node is
pure in this embedding: the failure involves no network or filesystem
state. -/
theorem claim_C5_validation :
    ∀ (w : Worker) (node : NodeConfig),
      (truthy node.url = true → truthy node.kubeconfig = false →
        truthy node.ctx = false →
        set_node w node = (PyResult.ok (),
          { url := node.url, user := node.username, password := node.password,
            client_cert := node.clientCert, client_key := node.clientKey,
            ca_cert := node.caCert, kubeconfig := node.kubeconfig,
            ctx := node.ctx })) ∧
      (truthy node.url = false → (truthy node.kubeconfig && truthy node.ctx) = false →
        set_node w node = (PyResult.exn (PyErr.attributeError missingParamMsg), w)) := by
  intro w node
  constructor
  · intro h1 h2 h3
    simp [set_node, h1]
  · intro h1 h2
    simp [set_node, h1, h2]

/-- C5 witness: the two validation outcomes at concrete configurations. -/
theorem claim_C5_witness :
    set_node priorWorker urlOnlyConfig = (PyResult.ok (),
      { url := some "https://kube.example", user := none, password := none,
        client_cert := none, client_key := none, ca_cert := none,
        kubeconfig := none, ctx := none }) ∧
    set_node priorWorker badConfig =
      (PyResult.exn (PyErr.attributeError missingParamMsg), priorWorker) := by
  exact ⟨(claim_C5_validation priorWorker urlOnlyConfig).1 (by decide) rfl rfl,
         (claim_C5_validation priorWorker badConfig).2 rfl (by decide)⟩

/-- C6: the architecture normalization rewrites a string to x86_64 exactly
when it case-insensitively equals amd64, and passes every other string
through verbatim; in particular amd64, AMD64 and Amd64 all become x86_64
and arm64 is unchanged. -/
theorem claim_C6_arch_normalization :
    (∀ a : String,
      (caseInsensitiveEq a "amd64" = true → normalizeArch a = "x86_64") ∧
      (caseInsensitiveEq a "amd64" = false → normalizeArch a = a)) ∧
    normalizeArch "amd64" = "x86_64" ∧ normalizeArch "AMD64" = "x86_64" ∧
    normalizeArch "Amd64" = "x86_64" ∧ normalizeArch "arm64" = "arm64" := by
  refine ⟨fun a => ⟨?_, ?_⟩, by decide, by decide, by decide, by decide⟩
  · intro h
    unfold caseInsensitiveEq at h
    rw [show pyLower "amd64" = "amd64" by decide] at h
    have hlow : pyLower a = "amd64" := eq_of_beq h
    simp [normalizeArch, hlow]
  · intro h
    unfold caseInsensitiveEq at h
    rw [show pyLower "amd64" = "amd64" by decide] at h
    have hlow : pyLower a ≠ "amd64" := by
      intro he
      rw [he] at h
      simp at h
    simp [normalizeArch, hlow]

/-- C6 witness: the normalization at concrete architecture strings through
the case-insensitive characterization. -/
theorem claim_C6_witness :
    normalizeArch "AMD64" = "x86_64" ∧ normalizeArch "arm64" = "arm64" :=
  ⟨(claim_C6_arch_normalization.1 "AMD64").1 (by decide),
   (claim_C6_arch_normalization.1 "arm64").2 (by decide)⟩

/-- C7: the claim says the cleanup teardown never raises and merely logs
removal failures.  The code violates this: when os.remove fails with an
errno other than ENOENT, the logging line of _safe_rm evaluates the
module-level name log, which is undefined (the logger lives on self.log),
so _safe_rm raises NameError instead of logging; here shown at a
permission-denied removal (errno 13) of an existing path. -/
theorem claim_C7_safe_rm_raises_nameerror :
    safe_rm c7Env (some "/tmp/kube-old") oldFileState =
      (PyResult.exn (PyErr.nameError "log"), oldFileState) := by
  decide

/-- C8: for every successful run over a backend response with pairwise
distinct node names, the output mapping is exactly one entry per node in
response order, keyed by node name, and every record has an empty vms
mapping, totalCpuThreads 1, and the raw cpu capacity value in cpuMhz,
totalCpuCores and totalCpuSockets. -/
theorem claim_C8_one_entry_per_node :
    ∀ (env : Env) (w : Worker) (s s1 : SysState) (nodes : List BackendNode),
      setup_connection env w s = (PyResult.ok (), s1) →
      (∀ q, env.removeOutcome q = none) →
      env.listNode = Except.ok nodes →
      (nodes.map BackendNode.name).Nodup →
      (run env w s).1 = PyResult.ok (some (buildOutput nodes)) ∧
      buildOutput nodes = nodes.map (fun n => (n.name, makeRecord n)) ∧
      (buildOutput nodes).map Prod.fst = nodes.map BackendNode.name ∧
      (buildOutput nodes).length = nodes.length ∧
      ∀ n ∈ nodes, (n.name, makeRecord n) ∈ buildOutput nodes ∧
        (makeRecord n).vms = [] ∧ (makeRecord n).totalCpuThreads = 1 ∧
        (makeRecord n).cpuMhz = n.cpu ∧ (makeRecord n).totalCpuCores = n.cpu ∧
        (makeRecord n).totalCpuSockets = n.cpu := by
  intro env w s s1 nodes hs hrm hln hnd
  have hb := buildOutput_eq nodes hnd
  refine ⟨?_, hb, ?_, ?_, ?_⟩
  · rw [run_of_setup_ok env w s s1 hs hrm]
    simp [runTry_ok env nodes hln]
  · rw [hb, List.map_map]
    rfl
  · rw [hb, List.length_map]
  · intro n hn
    refine ⟨?_, rfl, rfl, rfl, rfl, rfl⟩
    rw [hb]
    exact List.mem_map_of_mem _ hn

/-- C8 witness: a fabricated response of two distinctly named nodes yields
exactly the two keys node-a and node-b. -/
theorem claim_C8_witness :
    (run twoNodeEnv plainUrlWorker emptyState).1 =
      PyResult.ok (some (buildOutput [nodeA, nodeB])) ∧
    (buildOutput [nodeA, nodeB]).map Prod.fst = ["node-a", "node-b"] ∧
    (buildOutput [nodeA, nodeB]).length = 2 := by
  have h := claim_C8_one_entry_per_node twoNodeEnv plainUrlWorker emptyState
      plainUrlSetupState [nodeA, nodeB] (by decide) (fun q => rfl) rfl (by decide)
  exact ⟨h.1, by decide, by decide⟩

/-- C9: a run taking the kubeconfig and context path creates no temporary
file during setup, yet its teardown still removes whatever paths the three
fields of the module-global transport configuration hold after
load_kube_config, paths a previous run or the loaded kubeconfig may have
put there, rather than consulting a per-run record. -/
theorem claim_C9_cleanup_reads_global_config :
    ∀ (env : Env) (w : Worker) (s : SysState) (c : TransportConfig),
      truthy w.kubeconfig = true → truthy w.ctx = true →
      env.loadKubeConfig s.config = Except.ok c →
      (∀ q, env.removeOutcome q = none) →
      (setup_connection env w s).2.fs = s.fs ∧
      (run env w s).2.fs =
        ((s.fs.erase (c.ssl_ca_cert.getD "")).erase (c.cert_file.getD "")).erase
          (c.key_file.getD "") := by
  intro env w s c h1 h2 hl hrm
  have hsetup : setup_connection env w s = (.ok (), { s with config := c }) := by
    simp [setup_connection, h1, h2, hl]
  constructor
  · rw [hsetup]
  · rw [run_of_setup_ok env w s _ hsetup hrm]

/-- C9 witness: the kubeconfig-path run removes a leftover file recorded in
the stale global configuration even though this run created no file. -/
theorem claim_C9_witness :
    (setup_connection c9Env kubeconfigWorker oldFileState).2.fs = ["/tmp/kube-old"] ∧
    (run c9Env kubeconfigWorker oldFileState).2.fs = [] := by
  have h := claim_C9_cleanup_reads_global_config c9Env kubeconfigWorker
      oldFileState staleConfig rfl rfl rfl (fun q => rfl)
  refine ⟨h.1, ?_⟩
  rw [h.2]
  decide

/-- C10: when validation fails, set_node raises before any field
assignment, so the worker instance after the failed call is unchanged in
every stored field. -/
theorem claim_C10_failure_leaves_worker_unchanged :
    ∀ (w : Worker) (node : NodeConfig),
      truthy node.url = false → (truthy node.kubeconfig && truthy node.ctx) = false →
      (set_node w node).1 = PyResult.exn (PyErr.attributeError missingParamMsg) ∧
      (set_node w node).2 = w := by
  intro w node h1 h2
  constructor <;> simp [set_node, h1, h2]

/-- C10 witness: a failed call at a concrete invalid configuration leaves a
concrete previously configured worker exactly as it was. -/
theorem claim_C10_witness :
    (set_node priorWorker badConfig).2 = priorWorker ∧
    (set_node priorWorker badConfig).1 =
      PyResult.exn (PyErr.attributeError missingParamMsg) := by
  have h := claim_C10_failure_leaves_worker_unchanged priorWorker badConfig rfl
    (by decide)
  exact ⟨h.2, h.1⟩

end Kubernetes
